import Mathlib

/-!
Verification of the forgejo-mng provisioning tool (src/misc/forgejo-mng/main.py).

The Python program is shallowly embedded: every workflow function becomes a
pure Lean function of an explicit environment record (the responses the forge,
the filesystem, the subprocesses and the cluster CLI would give), returning the
list of observable effects it performs (the trace) and the process exit code
(0 for a normal return, 1 for sys.exit(1)).  Remote state for the token API is
additionally modelled as explicit state passing through a `Server` record, so
idempotence properties can be stated about the forge state itself.
-/

namespace ForgejoMng

/-! ## String helpers mirroring the Python primitives used by main.py -/

/-- Membership of `sub` as a contiguous sublist (Python `sub in s` on strings). -/
def listContainsSub (sub : List Char) : List Char → Bool
  | [] => sub.isEmpty
  | a :: l => sub.isPrefixOf (a :: l) || listContainsSub sub l

/-- Python `sub in s` for strings. -/
def strContains (s sub : String) : Bool :=
  listContainsSub sub.toList s.toList

/-- Python `s.startswith(pre)`. -/
def strStartsWith (s pre : String) : Bool :=
  pre.toList.isPrefixOf s.toList

/-- Python `s.rstrip("/")`. -/
def pyRstripSlash (s : String) : String :=
  String.mk (((s.toList.reverse).dropWhile (fun c => c = '/')).reverse)

/-- Python `s.lower()` (ASCII is all that the program compares). -/
def lowerStr (s : String) : String :=
  String.mk (s.toList.map Char.toLower)

/-- Python `s.split("/", 1)` for a string known to contain a slash:
first component and the rest after the first slash. -/
def splitFirstSlash (s : String) : String × String :=
  (String.mk (s.toList.takeWhile (fun c => c ≠ '/')),
   String.mk ((s.toList.dropWhile (fun c => c ≠ '/')).drop 1))

/-- `repo_owner.split("/")[0] if "/" in repo_owner else repo_owner`
(main.py lines 390, 540, 650). -/
def ownerOf (repo_owner : String) : String :=
  if strContains repo_owner "/" then (splitFirstSlash repo_owner).1 else repo_owner

/-- Python truthiness of an optional string (`if not token: ...`):
`none` is Python `None`, `some ""` the empty string; both are falsy. -/
def pyTruthyStr : Option String → Bool
  | none => false
  | some s => !(s == "")

/-! ## Observable effects

One constructor per externally visible action the program can perform:
HTTP requests, subprocess invocations (git, kubectl), filesystem writes,
browser opening, and terminal output (`click.echo`, with `echoErr` for
`err=True`).  `sys.exit` is not an action: it is the returned exit code. -/

inductive Action where
  | httpGetTokens
  | httpDeleteToken (id : Nat)
  | httpPostCreateToken (name : String)
  | httpDeleteRepo (owner repo : String)
  | httpPostCreateRepo (url : String)
  | httpPostWebhook (hookUrl : String)
  | httpCreateFileOnBranch (filepath baseBranch newBranch : String)
  | httpCreatePullRequest (title head base : String)
  | netProbe
  | kubeCreateNamespace (ns : String)
  | kubeDeleteSecret (name ns : String)
  | kubeCreateSecret (name ns token : String)
  | kubeDeleteRepository (name ns : String)
  | kubeApplyRepository (yaml : String)
  | gitClone (dest : String)
  | gitCheckoutBranch (branch : String)
  | mkdirParents (dest : String)
  | openBrowser (url : String)
  | echo (s : String)
  | echoErr (s : String)
deriving Repr, DecidableEq

/-- Actions that are network calls (HTTP requests to the forge). -/
def isNet : Action → Bool
  | .httpGetTokens => true
  | .httpDeleteToken _ => true
  | .httpPostCreateToken _ => true
  | .httpDeleteRepo _ _ => true
  | .httpPostCreateRepo _ => true
  | .httpPostWebhook _ => true
  | .httpCreateFileOnBranch _ _ _ => true
  | .httpCreatePullRequest _ _ _ => true
  | .netProbe => true
  | _ => false

def isKubeCreateSecret : Action → Bool
  | .kubeCreateSecret _ _ _ => true
  | _ => false

def isKubeApplyRepository : Action → Bool
  | .kubeApplyRepository _ => true
  | _ => false

def isKubeDeleteSecret : Action → Bool
  | .kubeDeleteSecret _ _ => true
  | _ => false

def isKubeDeleteRepository : Action → Bool
  | .kubeDeleteRepository _ _ => true
  | _ => false

def isHttpDeleteToken : Action → Bool
  | .httpDeleteToken _ => true
  | _ => false

def isHttpPostCreateToken : Action → Bool
  | .httpPostCreateToken _ => true
  | _ => false

/-- No action satisfying `q` occurs strictly before the first action
satisfying `p` (used for "delete happens before create" orderings). -/
def noneBefore (p q : Action → Bool) (l : List Action) : Prop :=
  ∀ a ∈ l.takeWhile (fun x => !p x), q a = false

instance (p q : Action → Bool) (l : List Action) : Decidable (noneBefore p q l) :=
  List.decidableBAll (fun a => q a = false) (l.takeWhile (fun x => !p x))

/-! ## Token Manager (`create_access_token`, main.py lines 714-749)

The forge's token REST endpoints are abstracted as a `Server` over a state
type `σ`: `listTokens` answers `GET /api/v1/users/{u}/tokens` with a status
and the JSON body, `deleteToken` answers the DELETE, `createToken` answers
the POST with a status and the body's `sha1` field (absent ⇒ `none`). -/

structure TokenJson where
  id : Nat
  name : String
  sha1 : String
deriving Repr, DecidableEq

structure Server (σ : Type) where
  listTokens : σ → Nat × List TokenJson
  deleteToken : σ → Nat → Nat × σ
  createToken : σ → String → (Nat × Option String) × σ

/-- `create_access_token(forgejo_url, auth, name, verify_tls)`.

Mirrors main.py 714-749: list the user's tokens; on a 200 response delete
the first token whose name equals `name` (the `try`/`except` around this
block ignores errors — the oracle never raises, so nothing is modelled for
it); then POST a new token; on 201/200 return the body's `sha1` field,
otherwise echo a warning and return the password `auth[1]`.

Returns (Python return value, final forge state, trace). -/
def create_access_token (srv : Server σ) (s0 : σ) (password name : String) :
    Option String × σ × List Action :=
  let listed := srv.listTokens s0
  let afterDel :
      σ × List Action :=
    if listed.1 = 200 then
      match listed.2.find? (fun t => t.name == name) with
      | some t =>
          ((srv.deleteToken s0 t.id).2,
           [Action.httpDeleteToken t.id, Action.echo ("Deleted existing token: " ++ name)])
      | none => (s0, [])
    else (s0, [])
  let created := srv.createToken afterDel.1 name
  if created.1.1 = 201 ∨ created.1.1 = 200 then
    (created.1.2, created.2,
     Action.httpGetTokens :: afterDel.2 ++ [Action.httpPostCreateToken name])
  else
    (some password, created.2,
     Action.httpGetTokens :: afterDel.2 ++
       [Action.httpPostCreateToken name,
        Action.echo ("Warning: Could not create token (status " ++ toString created.1.1 ++
          "), using password as fallback")])

/-- A stateless server giving fixed responses: models one concrete behaviour
of the remote forge for a single invocation. -/
def constServer (listStatus : Nat) (listBody : List TokenJson)
    (createStatus : Nat) (createSha1 : Option String) : Server Unit where
  listTokens := fun _ => (listStatus, listBody)
  deleteToken := fun _ _ => (204, ())
  createToken := fun _ _ => ((createStatus, createSha1), ())

/-- Modelled from the spec: the forge's token store (an external collaborator,
not part of src/).  §4.1: "the forge forbids duplicate token names"; listing
returns all tokens of the user; deletion removes the token with the given id;
creation fails (non-2xx, here 409) when a token of that name already exists,
otherwise stores a fresh token and returns its secret. -/
def forgeServer : Server (List TokenJson × Nat) where
  listTokens := fun s => (200, s.1)
  deleteToken := fun s i => (204, (s.1.filter (fun t => !(t.id == i)), s.2))
  createToken := fun s n =>
    if s.1.any (fun t => t.name == n) then ((409, none), s)
    else
      ((201, some ("tok-" ++ toString s.2)),
       (s.1 ++ [⟨s.2, n, "tok-" ++ toString s.2⟩], s.2 + 1))

/-- Number of tokens with the given name held by the forge. -/
def countNamed (name : String) (s : List TokenJson × Nat) : Nat :=
  (s.1.filter (fun t => t.name == name)).length

/-! ## ClusterRegistration creation (`create_pac_resources`, main.py 772-868)

The cluster CLI collaborator is an environment record: whether the `kubectl`
binary exists (its absence makes the first `subprocess.run` raise
`FileNotFoundError`, caught at 791-796), and the return code / stderr each
creation call would produce.  The two deletions pass `--ignore-not-found=true`
and their results are never inspected by the program, so they carry no fields. -/

structure KubeEnv where
  kubectlPresent : Bool
  nsRc : Nat
  nsStderr : String
  secretRc : Nat
  secretStderr : String
  applyRc : Nat
  applyStderr : String
deriving Repr, DecidableEq

/-- The inline manifest of main.py 844-857 (f-string rendered verbatim). -/
def repositoryYaml (repo_name ns repo_url internal_url : String) : String :=
  "apiVersion: pipelinesascode.tekton.dev/v1alpha1\n" ++
  "kind: Repository\n" ++
  "metadata:\n" ++
  "  name: " ++ repo_name ++ "\n" ++
  "  namespace: " ++ ns ++ "\n" ++
  "spec:\n" ++
  "  url: " ++ repo_url ++ "\n" ++
  "  git_provider:\n" ++
  "    type: gitea\n" ++
  "    url: " ++ internal_url ++ "\n" ++
  "    secret:\n" ++
  "      name: " ++ repo_name ++ "\n" ++
  "      key: token\n"

/-- `create_pac_resources(namespace, repo_name, repo_url, internal_url, token)`.

Trace of the function; it never calls `sys.exit`, every failure path is a
plain `return` (the caller continues), so only the trace is returned. -/
def create_pac_resources (env : KubeEnv) (ns repo_name repo_url internal_url token : String) :
    List Action :=
  Action.echo ("Creating PAC resources in namespace: " ++ ns) ::
  if !env.kubectlPresent then
    -- first subprocess.run raises FileNotFoundError, caught: echo and return
    [Action.echoErr "Error: kubectl not found. Please install kubectl or use --no-create-pac-cr"]
  else
    Action.kubeCreateNamespace ns ::
    (if env.nsRc = 0 then [Action.echo ("Namespace " ++ ns ++ " created")]
     else if strContains env.nsStderr "AlreadyExists" then
       [Action.echo ("Namespace " ++ ns ++ " already exists")]
     else [Action.echoErr ("Warning: Could not create namespace: " ++ env.nsStderr)]) ++
    Action.kubeDeleteSecret repo_name ns ::
    Action.kubeCreateSecret repo_name ns token ::
    if env.secretRc = 0 then
      Action.echo ("Secret " ++ repo_name ++ " created in namespace " ++ ns) ::
      Action.kubeDeleteRepository repo_name ns ::
      Action.kubeApplyRepository (repositoryYaml repo_name ns repo_url internal_url) ::
      (if env.applyRc = 0 then
         [Action.echo ("Repository CR " ++ repo_name ++ " created in namespace " ++ ns)]
       else [Action.echoErr ("Error creating Repository CR: " ++ env.applyStderr)])
    else
      [Action.echoErr ("Error creating secret: " ++ env.secretStderr)]

/-! ## Configuration record and `validate_required_config` (main.py 118-164)

`ctx.obj` as filled by the `cli` group (main.py 290-297).  Click yields `None`
for an unset string option; since the program only ever tests these four
fields for truthiness and concatenates them once validated, `None` is
represented by `""` (identically falsy).  `smee_url`/`internal_url` come from
`folder_secrets.get(...)` and can be genuinely absent, hence `Option`. -/

structure Ctx where
  forgejo_url : String
  username : String
  password : String
  repo_owner : String
  skip_tls : Bool
  smee_url : Option String
  internal_url : Option String
  webhook_url : String
deriving Repr, DecidableEq

/-- The four required fields of `validate_required_config` are all truthy. -/
def validateOk (c : Ctx) : Bool :=
  !(c.forgejo_url == "") && !(c.username == "") && !(c.password == "") && !(c.repo_owner == "")

/-- Diagnostic lines of a failed validation (one line per missing field; the
per-source hint lines of main.py 162-163 are further terminal text on the
same fatal path and are elided). -/
def validateFailTrace (c : Ctx) : List Action :=
  Action.echoErr "Error: Missing required configuration:" ::
  ((if c.forgejo_url == "" then [Action.echoErr "  forgejo_url can be provided via: ..."] else []) ++
   (if c.username == "" then [Action.echoErr "  username can be provided via: ..."] else []) ++
   (if c.password == "" then [Action.echoErr "  password can be provided via: ..."] else []) ++
   (if c.repo_owner == "" then [Action.echoErr "  repo_owner can be provided via: ..."] else []))

/-- Python truthiness of `ctx.obj.get(key)` for an optional string. -/
def pyTruthyOpt : Option String → Bool
  | none => false
  | some s => !(s == "")

/-! ## Repository Provisioner (`repo_command`, main.py 300-492) -/

/-- Outcome of the preliminary `requests.head` TLS probe (main.py 371-387):
normal response (recording whether it redirected to https), an `SSLError`,
or any other exception (silently ignored by the bare `except`). -/
inductive ProbeOutcome where
  | ok (redirectedHttps : Bool)
  | sslError
  | otherError
deriving Repr, DecidableEq

structure RepoEnv where
  listStatus : Nat
  listBody : List TokenJson
  createTokStatus : Nat
  createTokSha1 : Option String
  probe : ProbeOutcome
  deleteRepoStatus : Nat
  createRepoStatus : Nat
  htmlUrl : String
  cloneUrl : String
  webhookStatus : Nat
  kube : KubeEnv
  localPathExists : Bool
  gitCloneRc : Nat
  gitCloneStderr : String
  gitCheckoutRc : Nat
  gitCheckoutStderr : String
deriving Repr, DecidableEq

/-- Command-line arguments of the `repo` subcommand (main.py 300-330).
Click string options here all have default `""` except `internal_url`,
whose declared default is the sentinel compared at line 345. -/
structure RepoArgs where
  repo : String
  target_ns : String
  local_repo : String
  on_org : Bool
  smee_url : String
  internal_url : String
  create_pac_cr : Bool
deriving Repr, DecidableEq

def defaultInternalUrl : String := "http://forgejo-http.forgejo:3000"

/-- `create_webhook` (main.py 752-769): POST the hook, 201 echoes success,
anything else echoes a warning; never fatal. -/
def create_webhook (webhookStatus : Nat) (hook_url : String) : List Action :=
  Action.httpPostWebhook hook_url ::
  (if webhookStatus = 201 then [Action.echo ("Webhook created: " ++ hook_url)]
   else [Action.echo ("Warning: Could not create webhook (status " ++
          toString webhookStatus ++ ")")])

/-- Trace of the TLS-redirect probe block (main.py 370-387): only entered
for an `http://` URL; a normal response that redirected to https warns
unless TLS checking is off; other exceptions are swallowed. -/
def tlsProbeTrace (isHttp : Bool) (p : ProbeOutcome) (skip_tls : Bool) : List Action :=
  if isHttp then
    Action.netProbe ::
    (match p with
     | .ok r => if r && !skip_tls then
          [Action.echoErr "Warning: HTTP redirects to HTTPS. If you have certificate issues, set TEST_GITEA_SKIP_TLS=true"]
        else []
     | _ => [])
  else []

/-- `repo_command` (main.py 321-492) as (trace, exit code).

The authenticated clone URL built at 453-456 embeds credentials into the
`clone_url` returned by the forge; the `gitClone` action records the
destination (the URL is response data, inspected by no later step). -/
def repo_command (ctx : Ctx) (env : RepoEnv) (a : RepoArgs) : List Action × Nat :=
  -- webhook_url / smee_url / internal_url merging, main.py 339-351
  let smee_url := if a.smee_url == "" && pyTruthyOpt ctx.smee_url
                  then ctx.smee_url.getD "" else a.smee_url
  let internal_url := if a.internal_url == defaultInternalUrl && pyTruthyOpt ctx.internal_url
                      then ctx.internal_url.getD "" else a.internal_url
  let effective_webhook_url := if !(ctx.webhook_url == "") then ctx.webhook_url else smee_url
  if !validateOk ctx then (validateFailTrace ctx, 1)
  else
  let forgejo_url := pyRstripSlash ctx.forgejo_url
  -- TLS-redirect probe, main.py 370-387
  let probeTrace := tlsProbeTrace (strStartsWith forgejo_url "http://") env.probe ctx.skip_tls
  if strStartsWith forgejo_url "http://" && env.probe == ProbeOutcome.sslError then
    (probeTrace ++
      [Action.echoErr "Error: SSL certificate verification failed.",
       Action.echoErr "Hint: Set TEST_GITEA_SKIP_TLS=true to skip TLS verification"], 1)
  else
  let owner := ownerOf ctx.repo_owner
  let tok := create_access_token
    (constServer env.listStatus env.listBody env.createTokStatus env.createTokSha1) ()
    ctx.password a.repo
  let acc := probeTrace ++ Action.echo "Creating access token..." :: tok.2.2
  if !pyTruthyStr tok.1 then
    (acc ++ [Action.echoErr "Error: Failed to create access token"], 1)
  else
  let token := tok.1.getD ""
  let acc := acc ++ Action.httpDeleteRepo owner a.repo ::
    (if env.deleteRepoStatus = 204 then
       [Action.echo ("Repository " ++ owner ++ "/" ++ a.repo ++ " deleted")]
     else [])
  let create_url := if a.on_org then forgejo_url ++ "/api/v1/orgs/" ++ owner ++ "/repos"
                    else forgejo_url ++ "/api/v1/user/repos"
  let acc := acc ++ [Action.httpPostCreateRepo create_url]
  if !(env.createRepoStatus = 201 ∨ env.createRepoStatus = 409) then
    (acc ++ [Action.echoErr ("Error creating repository: " ++ toString env.createRepoStatus)], 1)
  else
  let html_url := env.htmlUrl
  let acc := acc ++ [Action.echo ("Repository created: " ++ html_url)]
  let acc := acc ++ (if !(effective_webhook_url == "") then
      create_webhook env.webhookStatus effective_webhook_url else [])
  let ns := if !(a.target_ns == "") then a.target_ns else a.repo
  let acc := acc ++ (if a.create_pac_cr then
      create_pac_resources env.kube ns a.repo html_url internal_url token else [])
  let local_checkout := if !(a.local_repo == "") then a.local_repo else "/tmp/" ++ a.repo
  if env.localPathExists then
    (acc ++ [Action.echo ("Directory " ++ local_checkout ++ " already exists, skipping clone"),
             Action.echo ("Local Checkout Directory: " ++ local_checkout),
             Action.echo ("Forgejo Repository URL: " ++ html_url)], 0)
  else
  let acc := acc ++ [Action.gitClone local_checkout]
  if !(env.gitCloneRc = 0) then
    (acc ++ Action.echoErr "Error during git operations: CalledProcessError" ::
       (if env.gitCloneStderr == "" then [] else [Action.echoErr env.gitCloneStderr]), 1)
  else
  let acc := acc ++ [Action.echo ("Repository cloned to: " ++ local_checkout),
                     Action.gitCheckoutBranch "tektonci"]
  if !(env.gitCheckoutRc = 0) then
    (acc ++ Action.echoErr "Error during git operations: CalledProcessError" ::
       (if env.gitCheckoutStderr == "" then [] else [Action.echoErr env.gitCheckoutStderr]), 1)
  else
    (acc ++ [Action.echo "Created branch: tektonci",
             Action.echo ("Local Checkout Directory: " ++ local_checkout),
             Action.echo ("Forgejo Repository URL: " ++ html_url)], 0)

/-! ## Pull Request Provisioner (`pr_command`, main.py 495-614) -/

/-- `generate_branch_name` (main.py 167-169); `ts` is `int(time.time())`,
the current Unix timestamp in whole seconds. -/
def generate_branch_name (ts : Nat) : String :=
  "pac-test-" ++ toString ts

/-- `create_file_on_branch` (main.py 172-204): POST to the contents endpoint,
forking `newBranch` from `baseBranch`; 201/200 returns the JSON (here `some ()`
— no field of it is read by the caller), otherwise echo an error and return
`None`.  The base64-encoded body content is request payload inspected by
nothing downstream and is not recorded on the action. -/
def create_file_on_branch (status : Nat) (filepath baseBranch newBranch : String) :
    Option Unit × List Action :=
  if status = 201 ∨ status = 200 then
    (some (), [Action.httpCreateFileOnBranch filepath baseBranch newBranch])
  else
    (none, [Action.httpCreateFileOnBranch filepath baseBranch newBranch,
            Action.echoErr ("Error creating file: " ++ toString status)])

/-- `create_pull_request_api` (main.py 207-227). -/
def create_pull_request_api (status : Nat) (title head base : String) :
    Option Unit × List Action :=
  if status = 201 ∨ status = 200 then
    (some (), [Action.httpCreatePullRequest title head base])
  else
    (none, [Action.httpCreatePullRequest title head base,
            Action.echoErr ("Error creating pull request: " ++ toString status)])

structure PrEnv where
  listStatus : Nat
  listBody : List TokenJson
  createTokStatus : Nat
  createTokSha1 : Option String
  ts : Nat
  fileExists : Bool
  createFileStatus : Nat
  prStatus : Nat
  prHtmlUrl : String
  prNumber : Nat
deriving Repr, DecidableEq

/-- `pr_command` (main.py 514-614) as (trace, exit code). -/
def pr_command (ctx : Ctx) (env : PrEnv)
    (repo target_branch title pipelinerun_file : String) (no_open : Bool) :
    List Action × Nat :=
  if !validateOk ctx then (validateFailTrace ctx, 1)
  else
  let tok := create_access_token
    (constServer env.listStatus env.listBody env.createTokStatus env.createTokSha1) ()
    ctx.password (repo ++ "-pr")
  let acc := Action.echo "Creating access token..." :: tok.2.2
  if !pyTruthyStr tok.1 then
    (acc ++ [Action.echoErr "Error: Failed to create access token"], 1)
  else
  let branch_name := generate_branch_name env.ts
  if !env.fileExists then
    (acc ++ [Action.echoErr ("Error: PipelineRun file not found: " ++ pipelinerun_file)], 1)
  else
  -- echoed text at main.py 570 puts quote characters around the branch name; elided here
  let acc := acc ++ [Action.echo ("Creating branch " ++ branch_name ++ " with PipelineRun file...")]
  let res := create_file_on_branch env.createFileStatus ".tekton/pr-noop.yaml"
    target_branch branch_name
  let acc := acc ++ res.2
  if res.1.isNone then
    (acc ++ [Action.echoErr "Error: Failed to create file on branch"], 1)
  else
  let acc := acc ++ [Action.echo ("File created on branch: " ++ branch_name)]
  let title2 := if title == "" then "Test PR - " ++ branch_name else title
  let acc := acc ++ [Action.echo "Creating pull request..."]
  let pr := create_pull_request_api env.prStatus title2 branch_name target_branch
  let acc := acc ++ pr.2
  if pr.1.isNone then
    (acc ++ [Action.echoErr "Error: Failed to create pull request"], 1)
  else
  let acc := acc ++ (if no_open == false then [Action.openBrowser env.prHtmlUrl] else [])
  (acc ++ [Action.echo "Pull Request Created!",
           Action.echo ("PR Number: " ++ toString env.prNumber),
           Action.echo ("PR URL: " ++ env.prHtmlUrl),
           Action.echo ("Branch: " ++ branch_name),
           Action.echo ("Target Branch: " ++ target_branch)], 0)

/-! ## Checkout Provisioner (`checkout_command`, main.py 617-711) -/

/-- `scheme` and `netloc` of `urlparse` for the `scheme://netloc/...` URLs
the program handles (main.py 676). -/
def splitSchemeAux : List Char → Option (List Char × List Char)
  | [] => none
  | c :: rest =>
    if [':', '/', '/'].isPrefixOf (c :: rest) then some ([], rest.drop 2)
    else
      match splitSchemeAux rest with
      | some p => some (c :: p.1, p.2)
      | none => none

def urlSchemeNetloc (u : String) : String × String :=
  match splitSchemeAux u.toList with
  | some p => (String.mk p.1, String.mk (p.2.takeWhile (fun c => c ≠ '/')))
  | none => (u, "")

structure CheckoutEnv where
  listStatus : Nat
  listBody : List TokenJson
  createTokStatus : Nat
  createTokSha1 : Option String
  destExists : Bool
  destIsFile : Bool
  destNonEmpty : Bool
  gitRc : Nat
  gitStderr : String
deriving Repr, DecidableEq

/-- `checkout_command` (main.py 621-711) as (trace, exit code).
`destExists` / `destIsFile` / `destNonEmpty` describe the resolved
destination path as the three filesystem tests of main.py 655-659 see it. -/
def checkout_command (ctx : Ctx) (env : CheckoutEnv) (repo destination : String) :
    List Action × Nat :=
  if !validateOk ctx then (validateFailTrace ctx, 1)
  else
  let forgejo_url := pyRstripSlash ctx.forgejo_url
  let ownerRepo := if strContains repo "/" then splitFirstSlash repo
                   else (ownerOf ctx.repo_owner, repo)
  let owner := ownerRepo.1
  let repo_name := ownerRepo.2
  -- destination validation, main.py 654-663: before any network call
  if env.destExists && env.destIsFile then
    ([Action.echoErr ("Error: Destination " ++ destination ++ " is a file")], 1)
  else if env.destExists && env.destNonEmpty then
    ([Action.echoErr "Error: Destination already exists and is not empty"], 1)
  else
  let acc := if env.destExists then [] else [Action.mkdirParents destination]
  let tok := create_access_token
    (constServer env.listStatus env.listBody env.createTokStatus env.createTokSha1) ()
    ctx.password ("checkout-" ++ repo_name)
  let acc := acc ++ Action.echo "Creating access token..." :: tok.2.2
  if !pyTruthyStr tok.1 then
    (acc ++ [Action.echoErr "Error: Failed to create access token"], 1)
  else
  let sn := urlSchemeNetloc forgejo_url
  let clone_url := sn.1 ++ "://" ++ sn.2 ++ "/" ++ owner ++ "/" ++ repo_name ++ ".git"
  let acc := acc ++ [Action.echo ("Cloning " ++ owner ++ "/" ++ repo_name ++ " to " ++
               destination ++ "..."),
             Action.gitClone destination]
  if env.gitRc = 0 then
    (acc ++ [Action.echo ("Repository cloned successfully to: " ++ destination),
             Action.echo ("Repository URL: " ++ clone_url)], 0)
  else
    let low := lowerStr env.gitStderr
    (acc ++ Action.echoErr "Error cloning repository: CalledProcessError" ::
       (if env.gitStderr == "" then [] else [Action.echoErr env.gitStderr]) ++
       (if strContains low "not found" || strContains low "repository not found" then
          [Action.echoErr ("Repository " ++ owner ++ "/" ++ repo_name ++ " may not exist")]
        else []), 1)

/-! ## Helper lemmas -/

/-- An action is neither a cluster-secret creation nor a custom-resource apply. -/
def noKubeWrite (a : Action) : Bool :=
  !isKubeCreateSecret a && !isKubeApplyRepository a

/-- Structure of every `create_access_token` trace: the GET comes first, the
(possible) delete next, the POST after, with at most a warning echo behind. -/
theorem cat_trace_shape (srv : Server σ) (s : σ) (pw n : String) :
    ∃ delActs post,
      (create_access_token srv s pw n).2.2 =
        Action.httpGetTokens :: delActs ++ Action.httpPostCreateToken n :: post ∧
      (delActs = [] ∨ ∃ i, delActs =
        [Action.httpDeleteToken i, Action.echo ("Deleted existing token: " ++ n)]) ∧
      (post = [] ∨ ∃ m, post = [Action.echo m]) := by
  unfold create_access_token
  by_cases h1 : (srv.listTokens s).1 = 200
  · cases h2 : (srv.listTokens s).2.find? (fun t => t.name == n) with
    | none =>
        by_cases h3 : ((srv.createToken s n).1.1 = 201 ∨ (srv.createToken s n).1.1 = 200)
        · exact ⟨[], [], by simp [h1, h2, h3], Or.inl rfl, Or.inl rfl⟩
        · exact ⟨[], [Action.echo ("Warning: Could not create token (status " ++
              toString (srv.createToken s n).1.1 ++ "), using password as fallback")],
            by simp [h1, h2, h3], Or.inl rfl, Or.inr ⟨_, rfl⟩⟩
    | some t =>
        by_cases h3 : ((srv.createToken (srv.deleteToken s t.id).2 n).1.1 = 201 ∨
            (srv.createToken (srv.deleteToken s t.id).2 n).1.1 = 200)
        · exact ⟨[Action.httpDeleteToken t.id,
              Action.echo ("Deleted existing token: " ++ n)], [],
            by simp [h1, h2, h3], Or.inr ⟨t.id, rfl⟩, Or.inl rfl⟩
        · exact ⟨[Action.httpDeleteToken t.id,
              Action.echo ("Deleted existing token: " ++ n)],
            [Action.echo ("Warning: Could not create token (status " ++
              toString (srv.createToken (srv.deleteToken s t.id).2 n).1.1 ++
              "), using password as fallback")],
            by simp [h1, h2, h3], Or.inr ⟨t.id, rfl⟩, Or.inr ⟨_, rfl⟩⟩
  · by_cases h3 : ((srv.createToken s n).1.1 = 201 ∨ (srv.createToken s n).1.1 = 200)
    · exact ⟨[], [], by simp [h1, h3], Or.inl rfl, Or.inl rfl⟩
    · exact ⟨[], [Action.echo ("Warning: Could not create token (status " ++
          toString (srv.createToken s n).1.1 ++ "), using password as fallback")],
        by simp [h1, h3], Or.inl rfl, Or.inr ⟨_, rfl⟩⟩

/-- Token-manager traces never write cluster resources. -/
theorem cat_trace_noKubeWrite (srv : Server σ) (s : σ) (pw n : String) :
    ((create_access_token srv s pw n).2.2).all noKubeWrite = true := by
  obtain ⟨delActs, post, htr, hdel, hpost⟩ := cat_trace_shape srv s pw n
  rw [htr]
  rcases hdel with h | ⟨i, h⟩ <;> rcases hpost with h' | ⟨m, h'⟩ <;>
    simp [h, h', noKubeWrite, isKubeCreateSecret, isKubeApplyRepository]

/-- On a 201/200 create response the stateless token manager returns the
body's sha1 field. -/
theorem cat_const_success (ls : Nat) (lb : List TokenJson) (st : Nat)
    (sh : Option String) (pw n : String) (h : st = 201 ∨ st = 200) :
    (create_access_token (constServer ls lb st sh) () pw n).1 = sh := by
  unfold create_access_token constServer
  by_cases h1 : ls = 200
  · cases h2 : lb.find? (fun t => t.name == n) <;> simp [h1, h2, h]
  · simp [h1, h]

/-- On any other create response status the stateless token manager falls
back to the password and echoes the warning. -/
theorem cat_const_fallback (ls : Nat) (lb : List TokenJson) (st : Nat)
    (sh : Option String) (pw n : String) (h : ¬(st = 201 ∨ st = 200)) :
    (create_access_token (constServer ls lb st sh) () pw n).1 = some pw ∧
    Action.echo ("Warning: Could not create token (status " ++ toString st ++
        "), using password as fallback") ∈
      (create_access_token (constServer ls lb st sh) () pw n).2.2 := by
  unfold create_access_token constServer
  by_cases h1 : ls = 200
  · cases h2 : lb.find? (fun t => t.name == n) <;> simp [h1, h2, h]
  · simp [h1, h]

/-- Core idempotence argument: against the spec-modelled forge, a run of the
token manager leaves at most one token of the requested name, provided the
forge held at most one before (its own invariant, since it forbids duplicate
names). -/
theorem cat_forge_count (s : List TokenJson × Nat) (pw n : String)
    (h : countNamed n s ≤ 1) :
    countNamed n (create_access_token forgeServer s pw n).2.1 ≤ 1 := by
  unfold create_access_token forgeServer
  simp only []
  cases h2 : s.1.find? (fun t => t.name == n) with
  | none =>
      have hall : ∀ t ∈ s.1, ¬(t.name == n) = true := List.find?_eq_none.1 h2
      have hany : s.1.any (fun t => t.name == n) = false := by
        simp only [List.any_eq_false]
        intro t ht
        simpa using hall t ht
      have hfil : s.1.filter (fun t => t.name == n) = [] := by
        rw [List.filter_eq_nil_iff]
        intro t ht
        simpa using hall t ht
      simp [h2, hany, countNamed, List.filter_append, hfil]
  | some t =>
      have htmem : t ∈ s.1 := List.mem_of_find?_eq_some h2
      have htp' := List.find?_some h2
      have htp : (t.name == n) = true := htp'
      -- the name-filter of the store is exactly [t]
      have hmemf : t ∈ s.1.filter (fun x => x.name == n) := List.mem_filter.2 ⟨htmem, htp⟩
      have hlen : (s.1.filter (fun x => x.name == n)).length = 1 := by
        have h1 : 1 ≤ (s.1.filter (fun x => x.name == n)).length :=
          Nat.succ_le_of_lt (List.length_pos_of_mem hmemf)
        unfold countNamed at h
        omega
      obtain ⟨a, ha⟩ := List.length_eq_one.1 hlen
      have hta : t = a := by
        have := hmemf
        rw [ha] at this
        simpa using this
      -- after deleting t's id, no token of that name remains
      have hfil0 : (s.1.filter (fun x => !(x.id == t.id))).filter
          (fun x => x.name == n) = [] := by
        rw [List.filter_eq_nil_iff]
        intro x hx
        rcases List.mem_filter.1 hx with ⟨hxmem, hxid⟩
        intro hxn
        have hxf : x ∈ s.1.filter (fun y => y.name == n) := List.mem_filter.2 ⟨hxmem, hxn⟩
        rw [ha, ← hta] at hxf
        have : x = t := by simpa using hxf
        subst this
        simp at hxid
      have hany0 : (s.1.filter (fun x => !(x.id == t.id))).any
          (fun x => x.name == n) = false := by
        simp only [List.any_eq_false]
        intro x hx
        have := List.filter_eq_nil_iff.1 hfil0 x hx
        simpa using this
      simp [h2, hany0, countNamed, List.filter_append, hfil0]

/-! ## Claim theorems -/

/-- C3 (counterexample): the claim says "on a 2xx status it returns the
created token's secret value"; on the 2xx status 204 whose body carries
sha1 "s3cret", `create_access_token` ignores the secret and returns the
plaintext password instead — the code only treats 201 and 200 as success. -/
theorem token_2xx_claim_false_at_204 :
    200 ≤ 204 ∧ 204 < 300 ∧
    (create_access_token (constServer 200 [] 204 (some "s3cret")) () "hunter2" "mytok").1
        = some "hunter2" ∧
    ¬ (create_access_token (constServer 200 [] 204 (some "s3cret")) () "hunter2" "mytok").1
        = some "s3cret" := by
  decide

/-- C3 (amended): for every call to the token-creation operation, if the
forge's create-token request returns a status other than 201 or 200 (this
includes every non-2xx status, but also 2xx statuses such as 204), the
operation returns the plaintext password and emits the fallback warning;
it never raises or terminates the process (it is a total function whose
trace contains no error output and whose callers receive a value on every
path); on a 201 or 200 status it returns the create response's sha1 field,
the created token's secret. -/
theorem token_fallback_statuses (ls : Nat) (lb : List TokenJson) (st : Nat)
    (sh : Option String) (pw n : String) :
    ((st = 201 ∨ st = 200) →
      (create_access_token (constServer ls lb st sh) () pw n).1 = sh) ∧
    (¬(st = 201 ∨ st = 200) →
      (create_access_token (constServer ls lb st sh) () pw n).1 = some pw ∧
      Action.echo ("Warning: Could not create token (status " ++ toString st ++
          "), using password as fallback") ∈
        (create_access_token (constServer ls lb st sh) () pw n).2.2) := by
  exact ⟨fun h => cat_const_success ls lb st sh pw n h,
         fun h => cat_const_fallback ls lb st sh pw n h⟩

/-- C3 (witness): the amended theorem applied at the concrete status 500:
the password comes back and the warning is in the trace. -/
theorem token_fallback_statuses_witness :
    (create_access_token (constServer 200 [] 500 none) () "hunter2" "mytok").1
        = some "hunter2" ∧
    Action.echo "Warning: Could not create token (status 500), using password as fallback" ∈
      (create_access_token (constServer 200 [] 500 none) () "hunter2" "mytok").2.2 :=
  (token_fallback_statuses 200 [] 500 none "hunter2" "mytok").2 (by decide)

/-- Every id deleted by a token-manager run against the spec-modelled forge
belongs to a stored token whose name is exactly the requested one. -/
theorem cat_forge_delete_exact (s : List TokenJson × Nat) (pw n : String) (i : Nat)
    (hi : Action.httpDeleteToken i ∈ (create_access_token forgeServer s pw n).2.2) :
    ∃ t ∈ s.1, t.id = i ∧ t.name = n := by
  cases h2 : s.1.find? (fun t => t.name == n) with
  | none =>
      exfalso
      unfold create_access_token forgeServer at hi
      by_cases h3 : s.1.any (fun t => t.name == n) <;> simp [h2, h3] at hi
  | some t =>
      have htmem : t ∈ s.1 := List.mem_of_find?_eq_some h2
      have htp' := List.find?_some h2
      have htn : t.name = n := by simpa using htp'
      refine ⟨t, htmem, ?_, htn⟩
      unfold create_access_token forgeServer at hi
      by_cases h3 : (s.1.filter (fun x => !(x.id == t.id))).any (fun x => x.name == n) <;>
        simp [h2, h3] at hi <;> omega

/-- C4: the token-creation operation lists the authenticated user's tokens
first (head of the trace is the GET), deletes only tokens whose name equals
the requested name exactly, performs no deletion after the create request,
and — against the spec-modelled forge, which forbids duplicate token names
(so at most one token of the requested name exists beforehand) — deletes a
pre-existing token of that name, and leaves at most one token of that name
after one run and after two runs. -/
theorem token_replace_idempotent (s : List TokenJson × Nat) (pw n : String)
    (h : countNamed n s ≤ 1) :
    countNamed n (create_access_token forgeServer s pw n).2.1 ≤ 1 ∧
    countNamed n (create_access_token forgeServer
        (create_access_token forgeServer s pw n).2.1 pw n).2.1 ≤ 1 ∧
    (create_access_token forgeServer s pw n).2.2.head? = some Action.httpGetTokens ∧
    (∀ a ∈ (create_access_token forgeServer s pw n).2.2.dropWhile
        (fun x => !isHttpPostCreateToken x), isHttpDeleteToken a = false) ∧
    (∀ i, Action.httpDeleteToken i ∈ (create_access_token forgeServer s pw n).2.2 →
        ∃ t ∈ s.1, t.id = i ∧ t.name = n) ∧
    ((∃ t ∈ s.1, t.name = n) →
        ∃ i, Action.httpDeleteToken i ∈ (create_access_token forgeServer s pw n).2.2) := by
  refine ⟨cat_forge_count s pw n h,
          cat_forge_count _ pw n (cat_forge_count s pw n h), ?_, ?_, ?_, ?_⟩
  · obtain ⟨delActs, post, htr, _, _⟩ := cat_trace_shape forgeServer s pw n
    rw [htr]
    rfl
  · obtain ⟨delActs, post, htr, hdel, hpost⟩ := cat_trace_shape forgeServer s pw n
    rw [htr]
    rcases hdel with hd | ⟨i, hd⟩ <;> rcases hpost with hp | ⟨m, hp⟩ <;>
      subst hd <;> subst hp <;>
      simp [isHttpPostCreateToken, isHttpDeleteToken, List.dropWhile_cons]
  · exact fun i hi => cat_forge_delete_exact s pw n i hi
  · rintro ⟨t, htm, htn⟩
    cases h2 : s.1.find? (fun x => x.name == n) with
    | none =>
        have := List.find?_eq_none.1 h2 t htm
        simp [htn] at this
    | some u =>
        refine ⟨u.id, ?_⟩
        unfold create_access_token forgeServer
        by_cases h3 : (s.1.filter (fun x => !(x.id == u.id))).any (fun x => x.name == n) <;>
          simp [h2, h3]

/-- C4 (witness): a forge holding one token named "mytok"; after the run at
most one token of that name remains. -/
theorem token_replace_idempotent_witness :
    countNamed "mytok" (([⟨0, "mytok", "old"⟩], 1) : List TokenJson × Nat) ≤ 1 ∧
    countNamed "mytok"
      (create_access_token forgeServer (([⟨0, "mytok", "old"⟩], 1) : List TokenJson × Nat)
        "hunter2" "mytok").2.1 ≤ 1 :=
  ⟨by decide,
   (token_replace_idempotent (([⟨0, "mytok", "old"⟩], 1) : List TokenJson × Nat)
      "hunter2" "mytok" (by decide)).1⟩

/-! ### Concrete fixtures used by closed counterexamples and witnesses -/

/-- A fully valid configuration (https URL, so the TLS probe is skipped). -/
def ctx0 : Ctx :=
  ⟨"https://forge.example.com", "alice", "hunter2", "alice", false, none, none, ""⟩

/-- A cluster CLI that is present and succeeds everywhere. -/
def kubeOk : KubeEnv := ⟨true, 0, "", 0, "", 0, ""⟩

/-- A cluster CLI whose binary is absent. -/
def kubeAbsent : KubeEnv := ⟨false, 0, "", 0, "", 0, ""⟩

/-- Cluster CLI present, namespace creation fails for a reason other than
AlreadyExists, later creations succeed. -/
def kubeNsFail : KubeEnv := ⟨true, 1, "Error from server (Forbidden)", 0, "", 0, ""⟩

/-- Default `repo` subcommand arguments for repository "demo". -/
def args0 : RepoArgs := ⟨"demo", "", "", false, "", defaultInternalUrl, true⟩

/-- A forge run in which everything succeeds, the token create response
carries sha1 "tok-sha", and the local checkout directory already exists
(so the clone is skipped). -/
def envOk : RepoEnv :=
  ⟨200, [], 201, some "tok-sha", ProbeOutcome.ok false, 204, 201,
   "https://forge.example.com/alice/demo", "https://forge.example.com/alice/demo.git",
   201, kubeOk, true, 0, "", 0, ""⟩

/-- Same as `envOk` but the 201 token-create response carries no sha1 field. -/
def envTokNone : RepoEnv :=
  ⟨200, [], 201, none, ProbeOutcome.ok false, 204, 201,
   "https://forge.example.com/alice/demo", "https://forge.example.com/alice/demo.git",
   201, kubeOk, true, 0, "", 0, ""⟩

/-- Same as `envOk` but the kubectl binary is absent. -/
def envNoKubectl : RepoEnv :=
  ⟨200, [], 201, some "tok-sha", ProbeOutcome.ok false, 204, 201,
   "https://forge.example.com/alice/demo", "https://forge.example.com/alice/demo.git",
   201, kubeAbsent, true, 0, "", 0, ""⟩

/-- C10 (counterexample): with a fully valid configuration (password
"hunter2" non-empty) the "Error: Failed to create access token" branch of the
repo command is reached: a 201 token-create response whose body has no sha1
field makes `create_access_token` return Python `None`, and the invocation
exits 1 with that diagnostic — the claim calls this branch unreachable. -/
theorem token_error_branch_reachable :
    validateOk ctx0 = true ∧ ¬ (ctx0.password = "") ∧
    (repo_command ctx0 envTokNone args0).2 = 1 ∧
    Action.echoErr "Error: Failed to create access token" ∈
      (repo_command ctx0 envTokNone args0).1 := by
  decide

/-- C10 (amended): given a non-empty password, the token-creation operation
returns a falsy value (Python `None` or `""`) exactly when the create-token
response has status 201 or 200 and its body's sha1 field is absent or empty;
for every other status the password fallback makes the result non-empty, so
the "Failed to create access token" exit branch is reachable only through a
201/200 response with a missing or empty sha1 value. -/
theorem token_result_falsy_iff (ls : Nat) (lb : List TokenJson) (st : Nat)
    (sh : Option String) (pw n : String) (hpw : ¬ pw = "") :
    pyTruthyStr (create_access_token (constServer ls lb st sh) () pw n).1 = false ↔
      ((st = 201 ∨ st = 200) ∧ (sh = none ∨ sh = some "")) := by
  by_cases h : st = 201 ∨ st = 200
  · rw [cat_const_success ls lb st sh pw n h]
    cases sh with
    | none => simp [pyTruthyStr, h]
    | some s => simp [pyTruthyStr, h]
  · rw [(cat_const_fallback ls lb st sh pw n h).1]
    simp [pyTruthyStr, h, hpw]

/-- C10 (witness): the amended theorem at status 500 with password "hunter2":
the result is truthy, the branch is not taken. -/
theorem token_result_falsy_iff_witness :
    pyTruthyStr (create_access_token (constServer 200 [] 500 none) () "hunter2" "mytok").1
      = true := by
  have h := token_result_falsy_iff 200 [] 500 none "hunter2" "mytok" (by decide)
  revert h
  decide

/-- With the kubectl binary absent, `create_pac_resources` emits exactly the
header echo and the CLI-not-found diagnostic, then returns. -/
theorem pac_no_kubectl_eq (e : KubeEnv) (h : e.kubectlPresent = false)
    (ns rn ru iu tk : String) :
    create_pac_resources e ns rn ru iu tk =
      [Action.echo ("Creating PAC resources in namespace: " ++ ns),
       Action.echoErr "Error: kubectl not found. Please install kubectl or use --no-create-pac-cr"] := by
  unfold create_pac_resources
  simp [h]

theorem tlsProbeTrace_noKubeWrite (b : Bool) (p : ProbeOutcome) (sk : Bool) :
    (tlsProbeTrace b p sk).all noKubeWrite = true := by
  unfold tlsProbeTrace
  cases p with
  | ok r => cases b <;> cases r <;> cases sk <;> rfl
  | sslError => cases b <;> rfl
  | otherError => cases b <;> rfl

theorem validateFailTrace_noKubeWrite (c : Ctx) :
    (validateFailTrace c).all noKubeWrite = true := by
  unfold validateFailTrace
  split_ifs <;> rfl

theorem create_webhook_noKubeWrite (st : Nat) (u : String) :
    (create_webhook st u).all noKubeWrite = true := by
  unfold create_webhook
  split_ifs <;> rfl

/-- Case-splitting helper: a branch of the command spine has a clean trace
as soon as both alternatives do. -/
theorem all_fst_ite {p : Action → Bool} {c : Prop} [Decidable c]
    {x y : List Action × Nat} (hx : x.1.all p = true) (hy : y.1.all p = true) :
    (if c then x else y).1.all p = true := by
  split
  · exact hx
  · exact hy

theorem all_append_intro {p : Action → Bool} {A B : List Action}
    (hA : A.all p = true) (hB : B.all p = true) : (A ++ B).all p = true := by
  simp [List.all_append, hA, hB]

theorem all_cons_intro {p : Action → Bool} {a : Action} {A : List Action}
    (ha : p a = true) (hA : A.all p = true) : (a :: A).all p = true := by
  simp [ha, hA]

theorem all_ite_intro {p : Action → Bool} {c : Prop} [Decidable c] {A B : List Action}
    (hA : A.all p = true) (hB : B.all p = true) : (if c then A else B).all p = true := by
  split
  · exact hA
  · exact hB

set_option maxHeartbeats 1000000 in
/-- C1 (amended): if cluster registration is requested and the kubectl
binary is absent, the cluster-registration sub-step emits exactly the
"kubectl not found" diagnostic and creates neither the secret nor the
custom resource — but it only returns from the sub-step: the repo workflow
as a whole performs no cluster secret/CR creation anywhere in its trace,
and execution continues past the registration step (the missing CLI makes
no branch of `repo_command` exit). -/
theorem repo_missing_kubectl_skips_secret_and_cr (ctx : Ctx) (env : RepoEnv)
    (a : RepoArgs) (ns rn ru iu tk : String) (h : env.kube.kubectlPresent = false) :
    create_pac_resources env.kube ns rn ru iu tk =
      [Action.echo ("Creating PAC resources in namespace: " ++ ns),
       Action.echoErr "Error: kubectl not found. Please install kubectl or use --no-create-pac-cr"] ∧
    (repo_command ctx env a).1.all noKubeWrite = true := by
  refine ⟨pac_no_kubectl_eq env.kube h ns rn ru iu tk, ?_⟩
  have hpac := pac_no_kubectl_eq env.kube h
  simp only [repo_command]
  refine all_fst_ite (validateFailTrace_noKubeWrite ctx)
    (all_fst_ite ?g1 (all_fst_ite ?g2 (all_fst_ite ?g3 (all_fst_ite ?g4
      (all_fst_ite ?g5 (all_fst_ite ?g6 ?g7))))))
  all_goals
    simp only [List.all_append, List.all_cons, List.all_nil, Bool.and_eq_true,
      Bool.and_true, Bool.true_and]
  all_goals
    repeat'
      first
      | apply And.intro
      | exact tlsProbeTrace_noKubeWrite _ _ _
      | exact cat_trace_noKubeWrite _ _ _ _
      | exact create_webhook_noKubeWrite _ _
      | (rw [hpac]; rfl)
      | apply all_ite_intro
      | rfl

/-- C1 (counterexample): a full repo invocation with cluster registration
requested (`create_pac_cr` true), the kubectl binary absent, and every other
collaborator succeeding: the "kubectl not found" diagnostic is emitted and
no secret/CR is created, but the invocation terminates with exit code 0 —
not the non-zero exit the claim asserts. -/
theorem repo_missing_kubectl_exit_zero :
    args0.create_pac_cr = true ∧
    envNoKubectl.kube.kubectlPresent = false ∧
    (repo_command ctx0 envNoKubectl args0).2 = 0 ∧
    Action.echoErr "Error: kubectl not found. Please install kubectl or use --no-create-pac-cr" ∈
      (repo_command ctx0 envNoKubectl args0).1 ∧
    (repo_command ctx0 envNoKubectl args0).1.all noKubeWrite = true := by
  decide

/-- C1 (witness): the amended theorem at the concrete no-kubectl run. -/
theorem repo_missing_kubectl_skips_secret_and_cr_witness :
    create_pac_resources envNoKubectl.kube "demo" "demo" "u" "i" "t" =
      [Action.echo "Creating PAC resources in namespace: demo",
       Action.echoErr "Error: kubectl not found. Please install kubectl or use --no-create-pac-cr"] ∧
    (repo_command ctx0 envNoKubectl args0).1.all noKubeWrite = true :=
  repo_missing_kubectl_skips_secret_and_cr ctx0 envNoKubectl args0 "demo" "demo" "u" "i" "t"
    (by decide)

/-- C2 (counterexample): cluster CLI present, the namespace creation fails
with an error that is not AlreadyExists (so one member of the triple fails),
yet the later members are still created: both the secret creation and the
custom-resource apply appear in the trace — the triple is not
"created together or not at all". -/
theorem pac_ns_failure_still_creates :
    kubeNsFail.nsRc ≠ 0 ∧
    strContains kubeNsFail.nsStderr "AlreadyExists" = false ∧
    (create_pac_resources kubeNsFail "demo" "demo"
        "https://forge.example.com/alice/demo" defaultInternalUrl "tok").any
      isKubeCreateSecret = true ∧
    (create_pac_resources kubeNsFail "demo" "demo"
        "https://forge.example.com/alice/demo" defaultInternalUrl "tok").any
      isKubeApplyRepository = true := by
  decide

/-- C2 (amended): in the cluster-registration sub-step (kubectl present),
the stale secret and stale Repository CR are deleted with ignore-not-found
semantics before their respective recreation (no creation precedes its
delete); a secret-creation failure prevents the custom resource from being
created (and a secret-creation success leads to the apply being issued);
but a namespace-creation failure only emits a warning and does not prevent
the secret and custom-resource creation. -/
theorem pac_resources_order_and_abort (e : KubeEnv) (ns rn ru iu tk : String)
    (h : e.kubectlPresent = true) :
    noneBefore isKubeDeleteSecret isKubeCreateSecret
      (create_pac_resources e ns rn ru iu tk) ∧
    noneBefore isKubeDeleteRepository isKubeApplyRepository
      (create_pac_resources e ns rn ru iu tk) ∧
    (create_pac_resources e ns rn ru iu tk).any isKubeCreateSecret = true ∧
    (e.secretRc ≠ 0 →
      (create_pac_resources e ns rn ru iu tk).any isKubeApplyRepository = false) ∧
    (e.secretRc = 0 →
      (create_pac_resources e ns rn ru iu tk).any isKubeApplyRepository = true) := by
  unfold create_pac_resources
  simp only [h, Bool.not_true]
  split_ifs <;>
    simp_all [noneBefore, List.takeWhile_cons, isKubeDeleteSecret, isKubeCreateSecret,
      isKubeDeleteRepository, isKubeApplyRepository]

/-- C2 (witness): the amended theorem at a run where everything succeeds. -/
theorem pac_resources_order_and_abort_witness :
    noneBefore isKubeDeleteSecret isKubeCreateSecret
      (create_pac_resources kubeOk "demo" "demo" "u" "i" "t") ∧
    (create_pac_resources kubeOk "demo" "demo" "u" "i" "t").any isKubeApplyRepository
      = true :=
  ⟨(pac_resources_order_and_abort kubeOk "demo" "demo" "u" "i" "t" (by decide)).1,
   (pac_resources_order_and_abort kubeOk "demo" "demo" "u" "i" "t" (by decide)).2.2.2.2
     (by decide)⟩

def isHttpPostCreateRepo : Action → Bool
  | .httpPostCreateRepo _ => true
  | _ => false

/-- Projection helper: the exit code of a branch is the branch's exit code. -/
theorem snd_ite {c : Prop} [Decidable c] (x y : List Action × Nat) :
    (if c then x else y).2 = if c then x.2 else y.2 :=
  apply_ite Prod.snd c x y

/-- Membership in the trace of a branch, given membership in both sides. -/
theorem mem_fst_ite {x : Action} {c : Prop} [Decidable c] {p q : List Action × Nat}
    (hp : x ∈ p.1) (hq : x ∈ q.1) : x ∈ (if c then p else q).1 := by
  split
  · exact hp
  · exact hq

/-- C5: in the repo workflow (reachable past validation, the TLS probe and
token creation), the repository-creation request is sent to the org-repos
endpoint when `on_org` is set and to the user-repos endpoint otherwise; a
201 or 409 response lets execution continue to the "Repository created"
report, and any other status aborts the invocation with exit code 1 and the
error diagnostic. -/
theorem repo_create_endpoint_and_statuses (ctx : Ctx) (env : RepoEnv) (a : RepoArgs)
    (hv : validateOk ctx = true)
    (hp : (strStartsWith (pyRstripSlash ctx.forgejo_url) "http://" &&
        env.probe == ProbeOutcome.sslError) = false)
    (ht : pyTruthyStr (create_access_token (constServer env.listStatus env.listBody
        env.createTokStatus env.createTokSha1) () ctx.password a.repo).1 = true) :
    Action.httpPostCreateRepo (if a.on_org then
        pyRstripSlash ctx.forgejo_url ++ "/api/v1/orgs/" ++ ownerOf ctx.repo_owner ++ "/repos"
      else pyRstripSlash ctx.forgejo_url ++ "/api/v1/user/repos") ∈
      (repo_command ctx env a).1 ∧
    (¬(env.createRepoStatus = 201 ∨ env.createRepoStatus = 409) →
      (repo_command ctx env a).2 = 1 ∧
      Action.echoErr ("Error creating repository: " ++ toString env.createRepoStatus) ∈
        (repo_command ctx env a).1) ∧
    ((env.createRepoStatus = 201 ∨ env.createRepoStatus = 409) →
      Action.echo ("Repository created: " ++ env.htmlUrl) ∈ (repo_command ctx env a).1) := by
  unfold repo_command
  simp only [hv, hp, ht, Bool.not_true, Bool.false_eq_true, reduceIte]
  refine ⟨?_, fun hnc => ?_, fun hcc => ?_⟩
  · repeat' apply mem_fst_ite
    all_goals simp [List.mem_append]
  · have hc' : (env.createRepoStatus = 201 ∨ env.createRepoStatus = 409) = False := by
      simp [hnc]
    simp only [hc', decide_False, Bool.not_false, reduceIte]
    exact ⟨by simp, by simp [List.mem_append]⟩
  · have hc' : (env.createRepoStatus = 201 ∨ env.createRepoStatus = 409) = True := by
      simp [hcc]
    simp only [hc', decide_True, Bool.not_true, Bool.false_eq_true, reduceIte]
    repeat' apply mem_fst_ite
    all_goals simp [List.mem_append]

/-- `envOk` with a repository-creation response that is neither 201 nor 409. -/
def envBadCreate : RepoEnv :=
  ⟨200, [], 201, some "tok-sha", ProbeOutcome.ok false, 204, 500,
   "https://forge.example.com/alice/demo", "https://forge.example.com/alice/demo.git",
   201, kubeOk, true, 0, "", 0, ""⟩

/-- C5 (witness): with a 500 creation response the workflow aborts with
exit 1 and the diagnostic. -/
theorem repo_create_endpoint_and_statuses_witness :
    (repo_command ctx0 envBadCreate args0).2 = 1 ∧
    Action.echoErr ("Error creating repository: " ++ toString envBadCreate.createRepoStatus)
      ∈ (repo_command ctx0 envBadCreate args0).1 :=
  (repo_create_endpoint_and_statuses ctx0 envBadCreate args0 (by decide) (by decide)
    (by decide)).2.1 (by decide)

theorem any_fst_ite {p : Action → Bool} {c : Prop} [Decidable c]
    {x y : List Action × Nat} (hx : x.1.any p = true) (hy : y.1.any p = true) :
    (if c then x else y).1.any p = true := by
  split
  · exact hx
  · exact hy

set_option maxHeartbeats 1000000 in
/-- C8: in the repo workflow (reachable past validation, the TLS probe and
token creation), the deletion request for the pre-existing repository is
always issued; a 204 response is reported with the "deleted" echo; the
repository-creation request is issued no matter what the deletion returned;
and the invocation's exit code does not depend on the deletion status at
all — deletion is never fatal. -/
theorem repo_delete_never_fatal (ctx : Ctx) (env : RepoEnv) (a : RepoArgs)
    (hv : validateOk ctx = true)
    (hp : (strStartsWith (pyRstripSlash ctx.forgejo_url) "http://" &&
        env.probe == ProbeOutcome.sslError) = false)
    (ht : pyTruthyStr (create_access_token (constServer env.listStatus env.listBody
        env.createTokStatus env.createTokSha1) () ctx.password a.repo).1 = true) :
    Action.httpDeleteRepo (ownerOf ctx.repo_owner) a.repo ∈ (repo_command ctx env a).1 ∧
    (env.deleteRepoStatus = 204 →
      Action.echo ("Repository " ++ ownerOf ctx.repo_owner ++ "/" ++ a.repo ++ " deleted")
        ∈ (repo_command ctx env a).1) ∧
    Action.httpPostCreateRepo (if a.on_org then
        pyRstripSlash ctx.forgejo_url ++ "/api/v1/orgs/" ++ ownerOf ctx.repo_owner ++ "/repos"
      else pyRstripSlash ctx.forgejo_url ++ "/api/v1/user/repos") ∈
      (repo_command ctx env a).1 ∧
    (∀ d : Nat, (repo_command ctx { env with deleteRepoStatus := d } a).2
        = (repo_command ctx env a).2) := by
  refine ⟨?_, fun h204 => ?_, ?_, fun d => ?_⟩
  · unfold repo_command
    simp only [hv, hp, ht, Bool.not_true, Bool.false_eq_true, reduceIte]
    repeat' apply mem_fst_ite
    all_goals simp [List.mem_append]
  · unfold repo_command
    simp only [hv, hp, ht, h204, Bool.not_true, Bool.false_eq_true, reduceIte]
    repeat' apply mem_fst_ite
    all_goals simp [List.mem_append]
  · unfold repo_command
    simp only [hv, hp, ht, Bool.not_true, Bool.false_eq_true, reduceIte]
    repeat' apply mem_fst_ite
    all_goals simp [List.mem_append]
  · unfold repo_command
    simp only [snd_ite]

/-- C8 (witness): at the all-successful run the delete is issued, reported
(204), and the create follows. -/
theorem repo_delete_never_fatal_witness :
    Action.httpDeleteRepo (ownerOf ctx0.repo_owner) args0.repo
      ∈ (repo_command ctx0 envOk args0).1 ∧
    Action.echo ("Repository " ++ ownerOf ctx0.repo_owner ++ "/" ++ args0.repo ++ " deleted")
      ∈ (repo_command ctx0 envOk args0).1 :=
  ⟨(repo_delete_never_fatal ctx0 envOk args0 (by decide) (by decide) (by decide)).1,
   (repo_delete_never_fatal ctx0 envOk args0 (by decide) (by decide) (by decide)).2.1
     (by decide)⟩

theorem validateFailTrace_noNet (c : Ctx) :
    (validateFailTrace c).all (fun x => !isNet x) = true := by
  unfold validateFailTrace
  split_ifs <;> rfl

/-- C6: a checkout invocation whose destination exists and is a file or a
non-empty directory exits 1 with a trace free of any network call (in
particular no token-creation request was issued); when the destination does
not exist (and the configuration is valid, so the invocation survives
validation), the parent directories are created. -/
theorem checkout_validation_before_network (ctx : Ctx) (env : CheckoutEnv)
    (repo dest : String) :
    (env.destExists = true → (env.destIsFile = true ∨ env.destNonEmpty = true) →
      (checkout_command ctx env repo dest).2 = 1 ∧
      (checkout_command ctx env repo dest).1.all (fun x => !isNet x) = true) ∧
    (validateOk ctx = true → env.destExists = false →
      Action.mkdirParents dest ∈ (checkout_command ctx env repo dest).1) := by
  constructor
  · intro hex hfe
    by_cases hv : validateOk ctx = true
    · by_cases hf : env.destIsFile = true
      · unfold checkout_command
        simp only [hv, hex, hf, Bool.not_true, Bool.false_eq_true, Bool.and_self, reduceIte]
        exact ⟨by simp, by simp [isNet]⟩
      · have hne : env.destNonEmpty = true := by
          rcases hfe with h | h
          · exact absurd h hf
          · exact h
        have hf' : env.destIsFile = false := by
          revert hf
          cases env.destIsFile <;> simp
        unfold checkout_command
        simp only [hv, hex, hf', hne, Bool.not_true, Bool.false_eq_true, Bool.and_self,
          Bool.and_false, Bool.and_true, reduceIte]
        exact ⟨by simp, by simp [isNet]⟩
    · have hv' : validateOk ctx = false := by
        revert hv
        cases validateOk ctx <;> simp
      unfold checkout_command
      simp only [hv', Bool.not_false, reduceIte]
      exact ⟨by simp, validateFailTrace_noNet ctx⟩
  · intro hv hne
    unfold checkout_command
    simp only [hv, hne, Bool.not_true, Bool.false_eq_true, Bool.false_and, reduceIte]
    repeat' apply mem_fst_ite
    all_goals simp [List.mem_append]

/-- Checkout run against a destination that is an existing file. -/
def coEnvFile : CheckoutEnv := ⟨200, [], 201, some "tok-sha", true, true, false, 0, ""⟩

/-- Checkout run against a fresh destination, everything succeeding. -/
def coEnvFresh : CheckoutEnv := ⟨200, [], 201, some "tok-sha", false, false, false, 0, ""⟩

/-- C6 (witness): the theorem at an existing-file destination (exit 1, no
network traffic) and at a fresh destination (parents created). -/
theorem checkout_validation_before_network_witness :
    ((checkout_command ctx0 coEnvFile "demo" "/tmp/demo").2 = 1 ∧
     (checkout_command ctx0 coEnvFile "demo" "/tmp/demo").1.all (fun x => !isNet x) = true) ∧
    Action.mkdirParents "/tmp/demo" ∈ (checkout_command ctx0 coEnvFresh "demo" "/tmp/demo").1 :=
  ⟨(checkout_validation_before_network ctx0 coEnvFile "demo" "/tmp/demo").1
      (by decide) (Or.inl (by decide)),
   (checkout_validation_before_network ctx0 coEnvFresh "demo" "/tmp/demo").2
      (by decide) (by decide)⟩

/-- The pull-request creation call always records its request, whatever the
response status. -/
theorem pr_api_mem (st : Nat) (t h b : String) :
    Action.httpCreatePullRequest t h b ∈ (create_pull_request_api st t h b).2 := by
  unfold create_pull_request_api
  split <;> simp

/-- C7: in the pull-request workflow (reachable past validation, token
creation, file existence, and a successful create-file response), the branch
committed to is exactly `"pac-test-" ++ <unix timestamp>`; when no title is
supplied the pull request is opened with title `"Test PR - " ++` that branch
name; and the generated branch name is a function of the whole-second
timestamp alone, so two invocations within the same second generate the
same branch name. -/
theorem pr_branch_name_and_title (ctx : Ctx) (env : PrEnv)
    (repo target_branch title pf : String) (no_open : Bool)
    (hv : validateOk ctx = true)
    (ht : pyTruthyStr (create_access_token (constServer env.listStatus env.listBody
        env.createTokStatus env.createTokSha1) () ctx.password (repo ++ "-pr")).1 = true)
    (hf : env.fileExists = true)
    (hcf : env.createFileStatus = 201 ∨ env.createFileStatus = 200) :
    generate_branch_name env.ts = "pac-test-" ++ toString env.ts ∧
    Action.httpCreateFileOnBranch ".tekton/pr-noop.yaml" target_branch
      (generate_branch_name env.ts) ∈
      (pr_command ctx env repo target_branch title pf no_open).1 ∧
    (title = "" →
      Action.httpCreatePullRequest ("Test PR - " ++ generate_branch_name env.ts)
        (generate_branch_name env.ts) target_branch ∈
        (pr_command ctx env repo target_branch title pf no_open).1) ∧
    (∀ t1 t2 : Nat, t1 = t2 → generate_branch_name t1 = generate_branch_name t2) := by
  have hcf' : (env.createFileStatus = 201 ∨ env.createFileStatus = 200) = True := by
    simp [hcf]
  refine ⟨rfl, ?_, fun htitle => ?_, fun t1 t2 h12 => by rw [h12]⟩
  · unfold pr_command
    simp only [hv, ht, hf, Bool.not_true, Bool.false_eq_true, reduceIte,
      create_file_on_branch, hcf', Option.isNone_some]
    repeat' apply mem_fst_ite
    all_goals simp [List.mem_append]
  · unfold pr_command
    simp only [hv, ht, hf, Bool.not_true, Bool.false_eq_true, reduceIte,
      create_file_on_branch, hcf', htitle, beq_self_eq_true, Option.isNone_some]
    repeat' apply mem_fst_ite
    all_goals simp [List.mem_append, pr_api_mem]

/-- A pull-request run in which everything succeeds, at Unix second
1700000000. -/
def prEnvOk : PrEnv :=
  ⟨200, [], 201, some "tok-sha", 1700000000, true, 201, 201,
   "https://forge.example.com/alice/demo/pulls/1", 1⟩

/-- C7 (witness): the theorem at the concrete run with no title supplied. -/
theorem pr_branch_name_and_title_witness :
    generate_branch_name prEnvOk.ts = "pac-test-" ++ toString prEnvOk.ts ∧
    Action.httpCreatePullRequest ("Test PR - " ++ generate_branch_name prEnvOk.ts)
      (generate_branch_name prEnvOk.ts) "main" ∈
      (pr_command ctx0 prEnvOk "demo" "main" "" "pr-noop.yaml" false).1 :=
  ⟨(pr_branch_name_and_title ctx0 prEnvOk "demo" "main" "" "pr-noop.yaml" false
      (by decide) (by decide) (by decide) (Or.inl (by decide))).1,
   (pr_branch_name_and_title ctx0 prEnvOk "demo" "main" "" "pr-noop.yaml" false
      (by decide) (by decide) (by decide) (Or.inl (by decide))).2.2.1 rfl⟩

end ForgejoMng
